import Mathlib

/-!
Shallow embedding of the mcltv backend's authentication and subscription layer.

All definitions in the first part of this file are translated from the
repository sources (`auth.py`, `models.py`, `routers/subscription.py`,
`routers/videos.py`).  Timestamps are modelled as natural numbers counting
minutes; `datetime.utcnow()` becomes an explicit `now : Nat` argument.
A `timedelta(days = d)` is `d * minutesPerDay` minutes.
-/

namespace MCLTV

/-- Minutes in a day, used to convert `timedelta(days = d)` to minutes. -/
def minutesPerDay : Nat := 1440

/-- User record, from `models.py` class `User` (the fields the
authentication and subscription layer reads or writes).  `id` is the
canonical string form of the UUID primary key. -/
structure User where
  id : String
  username : String
  email : String
  phone_number : String
  hashed_password : String
  is_admin : Bool
  is_subscribed : Bool
  subscription_expiry : Option Nat
deriving DecidableEq, Repr

/-- Subscription plan, from `models.py` class `SubscriptionPlan` (fields the
payment handlers read).  `id` is the canonical string form of the UUID. -/
structure SubscriptionPlan where
  id : String
  name : String
  price : Nat
  currency : String
  duration_days : Nat
  is_active : Bool
deriving DecidableEq, Repr

/-- An HTTP error response: FastAPI `HTTPException(status_code, detail)`. -/
structure HTTPError where
  status_code : Nat
  detail : String
deriving DecidableEq, Repr

/-- The shared 401 raised by `get_current_user` (`auth.py` lines 56-60). -/
def credentials_exception : HTTPError :=
  { status_code := 401, detail := "Could not validate credentials" }

/-! Token codec (`auth.py`).  A JWT is modelled as its claim payload plus
the key it was signed with; `jwt.decode` succeeds exactly when the key
matches the process secret and `exp` has not passed. -/

/-- Process-wide signing secret (`auth.py` line 18). -/
def SECRET_KEY : String :=
  "ivneWx0gdaNz9IEjeIAnhrUwFYLVYDHKQlrOoUYpi4GLxT_5YzF_KJ9d6s6XagXoMzxvMgJOZr765zoSPtglZw"

/-- Default access-token lifetime in minutes (`auth.py` line 20). -/
def ACCESS_TOKEN_EXPIRE_MINUTES : Nat := 120

/-- Default refresh-token lifetime in days (`auth.py` line 21). -/
def REFRESH_TOKEN_EXPIRE_DAYS : Nat := 7

/-- JWT claim payload.  The claims the code reads with `payload.get`
are optional (a foreign token may omit them); `exp` is always present in
tokens this system mints and is required by `jose` on decode. -/
structure Claims where
  sub : Option String
  user_id : Option String
  email : Option String
  phone : Option String
  token_type : Option String
  exp : Nat
deriving DecidableEq, Repr

/-- A signed token: the claim payload plus the key used to sign it. -/
structure Token where
  claims : Claims
  signedWith : String
deriving DecidableEq, Repr

/-- The `data` dict passed to the token creators before `exp` and
`token_type` are added. -/
structure TokenData where
  sub : Option String := none
  user_id : Option String := none
  email : Option String := none
  phone : Option String := none
deriving DecidableEq, Repr

/-- Failure modes of `jose.jwt.decode`; both are subclasses of `JWTError`
in the source and are never told apart by the callers in `auth.py`. -/
inductive JWTError where
  | invalidSignature
  | expired
deriving DecidableEq, Repr

/-- Model of `jose.jwt.decode(token, secret, algorithms)`: fails if the
token was not signed with `secret`, then fails if `exp` has passed
(`jose` rejects when `exp < now`), otherwise returns the payload. -/
def jwtDecode (secret : String) (now : Nat) (t : Token) : Except JWTError Claims :=
  if t.signedWith ≠ secret then .error .invalidSignature
  else if t.claims.exp < now then .error .expired
  else .ok t.claims

/-- `create_access_token` (`auth.py` lines 35-40): copies `data`, adds
`exp = now + expires_delta` (default `ACCESS_TOKEN_EXPIRE_MINUTES`) and
`token_type = "access"`, signs with `SECRET_KEY`. -/
def create_access_token (data : TokenData) (now : Nat) (expires_delta : Option Nat) : Token :=
  { claims := { sub := data.sub, user_id := data.user_id, email := data.email,
                phone := data.phone, token_type := some "access",
                exp := now + expires_delta.getD ACCESS_TOKEN_EXPIRE_MINUTES },
    signedWith := SECRET_KEY }

/-- `create_refresh_token` (`auth.py` lines 43-48): same, with
`token_type = "refresh"` and a default lifetime of
`REFRESH_TOKEN_EXPIRE_DAYS` days. -/
def create_refresh_token (data : TokenData) (now : Nat) (expires_delta : Option Nat) : Token :=
  { claims := { sub := data.sub, user_id := data.user_id, email := data.email,
                phone := data.phone, token_type := some "refresh",
                exp := now + expires_delta.getD (REFRESH_TOKEN_EXPIRE_DAYS * minutesPerDay) },
    signedWith := SECRET_KEY }

/-! Credential store.  The database is modelled as the list of user rows;
lookups are translated from `crud.get_user_by_username` and `db.get`. -/

/-- Lookup by username, modelling `crud.get_user_by_username`. -/
def get_user_by_username (db : List User) (username : String) : Option User :=
  db.find? (fun u => u.username = username)

/-- Primary-key lookup, modelling `db.get(User, user_id)`. -/
def dbGetUser (db : List User) (uid : String) : Option User :=
  db.find? (fun u => u.id = uid)

/-- `authenticate_user` (`auth.py` lines 27-32).  The password hasher is an
external collaborator, passed in as `verify` (model of
`security.verify_password`). -/
def authenticate_user (verify : String → String → Bool) (db : List User)
    (username password : String) : Option User :=
  match get_user_by_username db username with
  | none => none
  | some user => if verify password user.hashed_password then some user else none

/-- `get_current_user` (`auth.py` lines 51-79): decode the bearer token,
require `token_type = "access"`, require the `user_id` and `sub` claims,
then look the principal up by id; every failure collapses to the single
`credentials_exception` (HTTP 401). -/
def get_current_user (db : List User) (now : Nat) (token : Token) : Except HTTPError User :=
  match jwtDecode SECRET_KEY now token with
  | .error _ => .error credentials_exception
  | .ok payload =>
    if payload.token_type ≠ some "access" then .error credentials_exception
    else
      match payload.user_id, payload.sub with
      | some uid, some _ =>
        match dbGetUser db uid with
        | some user => .ok user
        | none => .error credentials_exception
      | _, _ => .error credentials_exception

/-- Successful login/register response body: access token, refresh token,
and the literal token type `"bearer"`. -/
structure TokenPair where
  access_token : Token
  refresh_token : Token
  token_type : String
deriving DecidableEq, Repr

/-- The 401 raised by `login` on authentication failure
(`auth.py` lines 151-156): one fixed response for both failure causes. -/
def login_failure : HTTPError :=
  { status_code := 401, detail := "Incorrect username or password" }

/-- `login` (`auth.py` lines 144-179): authenticate, then mint an access
token carrying sub/user_id/email/phone and a refresh token carrying only
`sub`. -/
def login (verify : String → String → Bool) (db : List User) (now : Nat)
    (username password : String) : Except HTTPError TokenPair :=
  match authenticate_user verify db username password with
  | none => .error login_failure
  | some user =>
    .ok { access_token := create_access_token
            { sub := some user.username, user_id := some user.id,
              email := some user.email, phone := some user.phone_number }
            now (some ACCESS_TOKEN_EXPIRE_MINUTES),
          refresh_token := create_refresh_token { sub := some user.username }
            now (some (REFRESH_TOKEN_EXPIRE_DAYS * minutesPerDay)),
          token_type := "bearer" }

/-- `refresh_token` endpoint (`auth.py` lines 182-215): decode the refresh
token, require `token_type = "refresh"` and a `sub` claim, then mint a new
access token whose data dict is only `sub = username`. -/
def refresh_token (now : Nat) (rt : Token) : Except HTTPError Token :=
  match jwtDecode SECRET_KEY now rt with
  | .error _ => .error { status_code := 401, detail := "Invalid refresh token" }
  | .ok payload =>
    if payload.token_type ≠ some "refresh" then
      .error { status_code := 401, detail := "Invalid token type" }
    else
      match payload.sub with
      | none => .error { status_code := 401, detail := "Invalid refresh token" }
      | some username =>
        .ok (create_access_token { sub := some username } now
              (some ACCESS_TOKEN_EXPIRE_MINUTES))

/-! Entitlement predicates. -/

/-- `User.is_subscription_active` (`models.py` lines 31-35): returns false
when the flag is unset or the expiry is `None` (falsy), otherwise compares
the expiry with now. -/
def User.is_subscription_active (u : User) (now : Nat) : Bool :=
  if !u.is_subscribed || u.subscription_expiry.isNone then false
  else u.subscription_expiry.any (fun e => now < e)

/-- The `is_active` computation of `get_subscription_status`
(`routers/subscription.py` lines 252-255):
`is_subscribed and (expiry is None or expiry > now)`. -/
def status_is_active (u : User) (now : Nat) : Bool :=
  u.is_subscribed && (u.subscription_expiry.isNone
    || u.subscription_expiry.any (fun e => now < e))

/-- The 403 of the subscription guard. -/
def subscription_required : HTTPError :=
  { status_code := 403, detail := "Active subscription required" }

/-- Modelled from the spec: `get_current_subscribed_user` is imported from
`auth` by `routers/videos.py` (line 17) but its definition is absent from
the provided sources.  Per spec 4.4 it wraps the session resolver and
applies the entitlement predicate
`is_subscribed AND (subscription_expiry IS NULL OR subscription_expiry > now)`,
failing with `SubscriptionRequired` (HTTP 403) when the principal is not
entitled. -/
def get_current_subscribed_user (db : List User) (now : Nat) (token : Token) :
    Except HTTPError User :=
  match get_current_user db now token with
  | .error e => .error e
  | .ok user =>
    if user.is_subscribed && (user.subscription_expiry.isNone
        || user.subscription_expiry.any (fun e => now < e)) then .ok user
    else .error subscription_required

/-! Transaction-reference parsing.  `initiate_subscription_payment` builds
`tx_ref = f"sub-X-Y"` where `X = current_user.id` and `Y = uuid.uuid4()`
are canonical dashed UUID strings; `verify_payment` and the webhook split
the reference on dashes and feed fragments to `uuid.UUID`. -/

/-- Python `str.split('-')`: split on every dash, keeping empty pieces. -/
def splitOnDash : List Char → List (List Char)
  | [] => [[]]
  | '-' :: cs => [] :: splitOnDash cs
  | c :: cs =>
    match splitOnDash cs with
    | [] => [[c]]
    | p :: ps => (c :: p) :: ps

/-- Inverse of `splitOnDash`: re-join pieces with single dashes. -/
def joinDash : List (List Char) → List Char
  | [] => []
  | [g] => g
  | g :: gs => g ++ '-' :: joinDash gs

/-- Hexadecimal digit, as accepted by Python `int(s, 16)` per character. -/
def isHex (c : Char) : Bool :=
  ('0' ≤ c && c ≤ '9') || ('a' ≤ c && c ≤ 'f') || ('A' ≤ c && c ≤ 'F')

/-- Part of the model of the `uuid.UUID` constructor:
`hex.replace('urn:', '')`. -/
def removeUrn : List Char → List Char
  | 'u' :: 'r' :: 'n' :: ':' :: rest => removeUrn rest
  | c :: cs => c :: removeUrn cs
  | [] => []

/-- Part of the model of the `uuid.UUID` constructor:
`hex.replace('uuid:', '')`. -/
def removeUuid : List Char → List Char
  | 'u' :: 'u' :: 'i' :: 'd' :: ':' :: rest => removeUuid rest
  | c :: cs => c :: removeUuid cs
  | [] => []

/-- A curly brace character, for the model of `str.strip` with braces. -/
def isBraceChar (c : Char) : Bool :=
  c = Char.ofNat 123 || c = Char.ofNat 125

/-- Model of Python `str.strip` with both curly braces as the strip set. -/
def pyStrip (cs : List Char) : List Char :=
  ((cs.dropWhile isBraceChar).reverse.dropWhile isBraceChar).reverse

/-- Re-insert the canonical 8-4-4-4-12 dashes into 32 hex digits. -/
def insertDashes (cs : List Char) : List Char :=
  cs.take 8 ++ '-' :: ((cs.drop 8).take 4 ++ '-' :: ((cs.drop 12).take 4
    ++ '-' :: ((cs.drop 16).take 4 ++ '-' :: (cs.drop 20))))

/-- Model of the Python `uuid.UUID(hex_string)` constructor on the inputs
this system feeds it (hex digits and dashes): strip `urn:`/`uuid:`
occurrences and surrounding braces, drop the dashes, require exactly 32
hex digits, and return the canonical lowercase dashed form (the form
`str(uuid)` yields, used for identifier comparison).  Returns `none`
where CPython raises `ValueError`. -/
def uuidParse (cs : List Char) : Option String :=
  let t := (pyStrip (removeUuid (removeUrn cs))).filter (fun c => c ≠ '-')
  if t.length = 32 && t.all isHex then
    some (String.mk (insertDashes (t.map Char.toLower)))
  else none

/-- Canonical dashed UUID string: five dash-separated groups of 8, 4, 4,
4 and 12 hex digits — the form `str(uuid.uuid4())` and `str(user.id)`
produce. -/
def isCanonicalUUID (s : String) : Bool :=
  match splitOnDash s.data with
  | [g1, g2, g3, g4, g5] =>
    g1.length = 8 && g2.length = 4 && g3.length = 4 && g4.length = 4
      && g5.length = 12 && g1.all isHex && g2.all isHex && g3.all isHex
      && g4.all isHex && g5.all isHex
  | _ => false

/-- The transaction reference built by `initiate_subscription_payment`
(`routers/subscription.py` line 131): `f"sub-X-Y"` with
`X = current_user.id` and `Y = uuid.uuid4()`. -/
def mkTxRef (userId randomId : String) : String :=
  "sub-" ++ userId ++ "-" ++ randomId

/-! Payment endpoints (`routers/subscription.py`).  Both handlers wrap
their whole body in `try/except Exception`.  In `verify_payment` the
`except` clause works as written: every error raised inside —
`HTTPException`s included — resurfaces as an HTTP 400 whose detail
prefixes the handler's message to the stringified inner error.  In the
webhook the `except` clause itself crashes (the payload's status string
shadows the `fastapi.status` module), so every raising path surfaces as
the framework's generic HTTP 500 instead; see `paychangu_webhook`. -/

/-- Result of `paychangu_client.direct_charge_service.verify_charge`
(external payment provider), the fields the handler reads. -/
structure Verification where
  status : String
  amount : Nat
  currency : String
deriving DecidableEq, Repr

/-- Success body of `verify_payment`. -/
structure PaymentResponse where
  status : String
  amount : Nat
  currency : String
  transaction_reference : String
  payment_date : Nat
  plan_id : String
  expiry_date : Nat
deriving DecidableEq, Repr

/-- The `except Exception` wrapper of `verify_payment`
(`routers/subscription.py` lines 197-201). -/
def wrapVerifyErr (msg : String) : HTTPError :=
  { status_code := 400, detail := "Payment verification failed: " ++ msg }

/-- `verify_payment` (`routers/subscription.py` lines 155-201).  On a
successful provider verification it parses `parts[2]` of the dash-split
reference as the plan id, looks the plan up, and sets
`is_subscribed := true` and `subscription_expiry := now + duration_days`
on the calling user.  Errors leave the user unchanged (the commit only
happens on the success path).  Inner `HTTPException`s and the
`uuid.UUID` `ValueError` are swallowed by the `except` clause into a 400. -/
def verify_payment (plans : List SubscriptionPlan) (verification : Verification)
    (now : Nat) (current_user : User) (transaction_reference : String) :
    Except HTTPError (User × PaymentResponse) :=
  if verification.status = "successful" then
    let parts := splitOnDash transaction_reference.data
    if parts.length < 3 then
      .error (wrapVerifyErr "400: Invalid transaction reference")
    else
      match uuidParse (parts.getD 2 []) with
      | none => .error (wrapVerifyErr "badly formed hexadecimal UUID string")
      | some plan_id =>
        match plans.find? (fun p => p.id = plan_id) with
        | none => .error (wrapVerifyErr "404: Subscription plan not found")
        | some plan =>
          let expiry := now + plan.duration_days * minutesPerDay
          let user := { current_user with
            is_subscribed := true,
            subscription_expiry := some expiry }
          .ok (user,
            { status := "success", amount := verification.amount,
              currency := verification.currency,
              transaction_reference := transaction_reference,
              payment_date := now, plan_id := plan.id, expiry_date := expiry })
  else .error (wrapVerifyErr "402: Payment not completed or failed")

/-- Webhook request body, the two keys the handler reads with
`payload.get`. -/
structure WebhookPayload where
  tx_ref : Option String
  status : Option String
deriving DecidableEq, Repr

/-- FastAPI's response to an exception no handler catches: a generic
HTTP 500 with the fixed body `Internal Server Error` (`main.py`
installs no custom exception handler). -/
def internal_server_error : HTTPError :=
  { status_code := 500, detail := "Internal Server Error" }

/-- `paychangu_webhook` (`routers/subscription.py` lines 206-241).  On
`status == "successful"` it splits the reference, parses `parts[1]` as
the user id and `parts[2]` as the plan id, and when both rows exist sets
`is_subscribed := true` and `subscription_expiry := now + duration_days`
on that user; every non-raising path returns the `status: success`
acknowledgment.  The handler's `except` clause never produces the
`HTTPException(400)` it spells out: the local `status` assigned on line
214 — the payload's status string — shadows the imported
`fastapi.status` module, so `status.HTTP_400_BAD_REQUEST` on line 239
raises `AttributeError` while the original exception is being handled,
and the endpoint answers the framework's generic HTTP 500.  Every
raising path — a missing `tx_ref` (`None.split`), a reference with
fewer than three dash-parts (whose inner `HTTPException(400)` is
swallowed by the `except`), an id fragment `uuid.UUID` rejects —
therefore surfaces as that one generic 500. -/
def paychangu_webhook (users : List User) (plans : List SubscriptionPlan)
    (now : Nat) (payload : WebhookPayload) :
    Except HTTPError (String × List User) :=
  if payload.status = some "successful" then
    match payload.tx_ref with
    | none => .error internal_server_error
    | some ref =>
      let parts := splitOnDash ref.data
      if parts.length < 3 then
        .error internal_server_error
      else
        match uuidParse (parts.getD 1 []), uuidParse (parts.getD 2 []) with
        | some user_id, some plan_id =>
          match dbGetUser users user_id, plans.find? (fun p => p.id = plan_id) with
          | some user, some plan =>
            let expiry := now + plan.duration_days * minutesPerDay
            let users := users.map (fun v =>
              if v.id = user.id then
                { v with
                  is_subscribed := true,
                  subscription_expiry := some expiry }
              else v)
            .ok ("success", users)
          | _, _ => .ok ("success", users)
        | _, _ => .error internal_server_error
  else .ok ("success", users)

/-! Helper lemmas about the reference-string parsing model. -/

theorem splitOnDash_ne_nil (cs : List Char) : splitOnDash cs ≠ [] := by
  induction cs using splitOnDash.induct with
  | case1 => simp [splitOnDash]
  | case2 cs ih => simp [splitOnDash]
  | case3 c cs hne hnil ih => rw [splitOnDash.eq_3 c cs hne, hnil]; simp
  | case4 c cs hne p ps hcons ih => rw [splitOnDash.eq_3 c cs hne, hcons]; simp

theorem splitOnDash_append (xs ys : List Char) :
    splitOnDash (xs ++ '-' :: ys) = splitOnDash xs ++ splitOnDash ys := by
  induction xs using splitOnDash.induct with
  | case1 => rfl
  | case2 cs ih =>
    rw [List.cons_append, splitOnDash.eq_2, splitOnDash.eq_2, ih, List.cons_append]
  | case3 c cs hne hnil ih => exact absurd hnil (splitOnDash_ne_nil cs)
  | case4 c cs hne p ps hcons ih =>
    rw [List.cons_append, splitOnDash.eq_3 c _ hne, splitOnDash.eq_3 c cs hne, ih, hcons]
    cases hq : splitOnDash (cs ++ '-' :: ys) with
    | nil => exact absurd hq (splitOnDash_ne_nil _)
    | cons q qs =>
      have h2 : (p :: ps) ++ splitOnDash ys = q :: qs := by rw [← hcons, ← ih, hq]
      simp only [List.cons_append] at h2
      cases h2
      rfl

theorem joinDash_splitOnDash (cs : List Char) : joinDash (splitOnDash cs) = cs := by
  induction cs using splitOnDash.induct with
  | case1 => rfl
  | case2 cs ih =>
    rw [splitOnDash.eq_2]
    cases hq : splitOnDash cs with
    | nil => exact absurd hq (splitOnDash_ne_nil cs)
    | cons q qs =>
      rw [hq] at ih
      show ([] : List Char) ++ '-' :: joinDash (q :: qs) = '-' :: cs
      rw [List.nil_append, ih]
  | case3 c cs hne hnil ih => exact absurd hnil (splitOnDash_ne_nil cs)
  | case4 c cs hne p ps hcons ih =>
    rw [splitOnDash.eq_3 c cs hne, hcons]
    rw [hcons] at ih
    cases ps with
    | nil => exact congrArg (List.cons c) ih
    | cons r rs => exact congrArg (List.cons c) ih

theorem hex_ne_colon (c : Char) (h : isHex c = true) : c ≠ ':' := by
  rintro rfl
  simp [isHex] at h

theorem hex_not_brace (c : Char) (h : isHex c = true) : isBraceChar c = false := by
  cases hbb : isBraceChar c with
  | false => rfl
  | true =>
    have hor : c = Char.ofNat 123 ∨ c = Char.ofNat 125 := by
      simpa [isBraceChar] using hbb
    rcases hor with rfl | rfl
    · exact absurd h (by decide)
    · exact absurd h (by decide)

theorem hex_ne_dash (c : Char) (h : isHex c = true) : c ≠ '-' := by
  rintro rfl
  simp [isHex] at h

theorem removeUrn_noColon (cs : List Char) (h : ∀ c ∈ cs, c ≠ ':') :
    removeUrn cs = cs := by
  induction cs using removeUrn.induct with
  | case1 rest ih => exact absurd rfl (h ':' (by simp))
  | case2 c cs hne ih =>
    rw [removeUrn.eq_2 c cs hne, ih (fun x hx => h x (List.mem_cons_of_mem c hx))]
  | case3 => rfl

theorem removeUuid_noColon (cs : List Char) (h : ∀ c ∈ cs, c ≠ ':') :
    removeUuid cs = cs := by
  induction cs using removeUuid.induct with
  | case1 rest ih => exact absurd rfl (h ':' (by simp))
  | case2 c cs hne ih =>
    rw [removeUuid.eq_2 c cs hne, ih (fun x hx => h x (List.mem_cons_of_mem c hx))]
  | case3 => rfl

theorem dropWhile_of_false (p : Char → Bool) (cs : List Char)
    (h : ∀ c ∈ cs, p c = false) : cs.dropWhile p = cs := by
  cases cs with
  | nil => rfl
  | cons c cs => rw [List.dropWhile_cons, h c (by simp)]; simp

theorem pyStrip_noBrace (cs : List Char) (h : ∀ c ∈ cs, isBraceChar c = false) :
    pyStrip cs = cs := by
  unfold pyStrip
  rw [dropWhile_of_false _ cs h,
      dropWhile_of_false _ cs.reverse (fun c hc => h c (List.mem_reverse.mp hc)),
      List.reverse_reverse]

theorem filter_ne_dash (cs : List Char) (h : ∀ c ∈ cs, c ≠ '-') :
    cs.filter (fun c => c ≠ '-') = cs := by
  induction cs with
  | nil => rfl
  | cons c cs ih =>
    have hc : c ≠ '-' := h c (by simp)
    simp only [List.filter_cons, hc, decide_not, ih (fun x hx => h x (List.mem_cons_of_mem c hx))]
    simp [hc]
    exact fun x hx => h x (List.mem_cons_of_mem c hx)

theorem uuidParse_hex_not32 (cs : List Char) (hhex : cs.all isHex = true)
    (hlen : cs.length ≠ 32) : uuidParse cs = none := by
  have hmem : ∀ c ∈ cs, isHex c = true := List.all_eq_true.mp hhex
  unfold uuidParse
  rw [removeUrn_noColon cs (fun c hc => hex_ne_colon c (hmem c hc)),
      removeUuid_noColon cs (fun c hc => hex_ne_colon c (hmem c hc)),
      pyStrip_noBrace cs (fun c hc => hex_not_brace c (hmem c hc)),
      filter_ne_dash cs (fun c hc => hex_ne_dash c (hmem c hc))]
  simp [hlen]

theorem canonical_split (s : String) (h : isCanonicalUUID s = true) :
    ∃ g1 g2 g3 g4 g5 : List Char,
      splitOnDash s.data = [g1, g2, g3, g4, g5] ∧
      g1.length = 8 ∧ g2.length = 4 ∧ g3.length = 4 ∧ g4.length = 4 ∧
      g5.length = 12 ∧ g1.all isHex = true ∧ g2.all isHex = true ∧
      g3.all isHex = true ∧ g4.all isHex = true ∧ g5.all isHex = true := by
  unfold isCanonicalUUID at h
  split at h
  next g1 g2 g3 g4 g5 heq =>
    simp only [Bool.and_eq_true, decide_eq_true_eq] at h
    obtain ⟨⟨⟨⟨⟨⟨⟨⟨⟨h1, h2⟩, h3⟩, h4⟩, h5⟩, h6⟩, h7⟩, h8⟩, h9⟩, h10⟩ := h
    exact ⟨g1, g2, g3, g4, g5, heq, h1, h2, h3, h4, h5, h6, h7, h8, h9, h10⟩
  next => simp at h

theorem split_mkTxRef (uid rid : String) :
    splitOnDash (mkTxRef uid rid).data
      = [['s', 'u', 'b']] ++ (splitOnDash uid.data ++ splitOnDash rid.data) := by
  have hdata : (mkTxRef uid rid).data
      = ['s', 'u', 'b'] ++ '-' :: (uid.data ++ '-' :: rid.data) := by
    show (("sub-" ++ uid) ++ "-" ++ rid).data = _
    rw [String.data_append, String.data_append, String.data_append]
    simp [List.append_assoc]
  rw [hdata, splitOnDash_append, splitOnDash_append]
  congr 1

/-- C10: for every transaction reference the system itself produces —
`f"sub-X-Y"` with `X` the user id and `Y` a random UUID, both canonical
dashed UUID strings — the dash-split parsing never recovers the intended
identifiers: `parts[1]` is the 8-hex first group of the user id and
`parts[2]` its 4-hex second group, `uuid.UUID` raises on both, and both
endpoints therefore fail even when the provider reports the payment
successful — `verify_payment` with its wrapped HTTP 400, the webhook
with the generic HTTP 500 (its `except` clause crashes on the shadowed
`status`). -/
theorem generated_tx_ref_never_activates
    (uid rid : String) (hu : isCanonicalUUID uid = true)
    (hr : isCanonicalUUID rid = true)
    (users : List User) (plans : List SubscriptionPlan)
    (verification : Verification) (hs : verification.status = "successful")
    (now : Nat) (current_user : User) :
    ((splitOnDash (mkTxRef uid rid).data).getD 1 []).length = 8 ∧
    ((splitOnDash (mkTxRef uid rid).data).getD 2 []).length = 4 ∧
    verify_payment plans verification now current_user (mkTxRef uid rid)
      = .error (wrapVerifyErr "badly formed hexadecimal UUID string") ∧
    paychangu_webhook users plans now
        { tx_ref := some (mkTxRef uid rid), status := some "successful" }
      = .error internal_server_error := by
  obtain ⟨g1, g2, g3, g4, g5, hsu, hl1, hl2, hl3, hl4, hl5, hx1, hx2, hx3, hx4, hx5⟩ :=
    canonical_split uid hu
  obtain ⟨k1, k2, k3, k4, k5, hsr, hk1, hk2, hk3, hk4, hk5, hy1, hy2, hy3, hy4, hy5⟩ :=
    canonical_split rid hr
  have hsplit : splitOnDash (mkTxRef uid rid).data
      = [['s', 'u', 'b'], g1, g2, g3, g4, g5, k1, k2, k3, k4, k5] := by
    rw [split_mkTxRef, hsu, hsr]
    rfl
  have hg1 : uuidParse g1 = none :=
    uuidParse_hex_not32 g1 hx1 (by rw [hl1]; decide)
  have hg2 : uuidParse g2 = none :=
    uuidParse_hex_not32 g2 hx2 (by rw [hl2]; decide)
  refine ⟨?_, ?_, ?_, ?_⟩
  · rw [hsplit]
    simpa using hl1
  · rw [hsplit]
    simpa using hl2
  · unfold verify_payment
    rw [hs]
    simp only [if_pos rfl, hsplit]
    norm_num [List.getD, hg2]
  · unfold paychangu_webhook
    simp only [if_pos rfl, hsplit]
    norm_num [List.getD, hg1, hg2]

/-- Witness for C10: a concrete system-generated reference on which both
payment endpoints fail despite a successful provider verification. -/
theorem generated_tx_ref_never_activates_witness :
    verify_payment [] { status := "successful", amount := 0, currency := "MWK" } 0
        ⟨"12345678-90ab-cdef-1234-567890abcdef", "alice", "a@x.mw", "099", "h",
         false, false, none⟩
        (mkTxRef "12345678-90ab-cdef-1234-567890abcdef"
          "0f0e0d0c-0b0a-0908-0706-050403020100")
      = .error (wrapVerifyErr "badly formed hexadecimal UUID string") ∧
    paychangu_webhook [] [] 0
        { tx_ref := some (mkTxRef "12345678-90ab-cdef-1234-567890abcdef"
            "0f0e0d0c-0b0a-0908-0706-050403020100"),
          status := some "successful" }
      = .error internal_server_error :=
  ⟨(generated_tx_ref_never_activates "12345678-90ab-cdef-1234-567890abcdef"
      "0f0e0d0c-0b0a-0908-0706-050403020100" (by decide) (by decide) [] []
      { status := "successful", amount := 0, currency := "MWK" } rfl 0
      ⟨"12345678-90ab-cdef-1234-567890abcdef", "alice", "a@x.mw", "099", "h",
       false, false, none⟩).2.2.1,
   (generated_tx_ref_never_activates "12345678-90ab-cdef-1234-567890abcdef"
      "0f0e0d0c-0b0a-0908-0706-050403020100" (by decide) (by decide) [] []
      { status := "successful", amount := 0, currency := "MWK" } rfl 0
      ⟨"12345678-90ab-cdef-1234-567890abcdef", "alice", "a@x.mw", "099", "h",
       false, false, none⟩).2.2.2⟩

/-- C6: for every token whose verification fails for any reason — wrong
signing key, `exp` in the past (regardless of signature validity), a
`token_type` other than `"access"` (e.g. a refresh token), or a missing
`user_id` or `sub` claim — `get_current_user` fails with the single
`credentials_exception`, HTTP 401. -/
theorem resolve_fails_credentials_invalid
    (db : List User) (now : Nat) (token : Token)
    (h : token.signedWith ≠ SECRET_KEY ∨ token.claims.exp < now ∨
         token.claims.token_type ≠ some "access" ∨
         token.claims.user_id = none ∨ token.claims.sub = none) :
    get_current_user db now token = .error credentials_exception ∧
    credentials_exception.status_code = 401 := by
  refine ⟨?_, rfl⟩
  unfold get_current_user jwtDecode
  by_cases h1 : token.signedWith = SECRET_KEY <;>
    by_cases h2 : token.claims.exp < now <;>
      simp only [h1, h2, ne_eq, not_true_eq_false, not_false_eq_true,
        ite_true, ite_false, if_true, if_false, ite_not]
  rcases h with h | h | h | h | h
  · exact absurd h1 h
  · exact absurd h h2
  · rw [if_neg h]
  · by_cases h3 : token.claims.token_type = some "access"
    · rw [if_pos h3, h]
    · rw [if_neg h3]
  · by_cases h3 : token.claims.token_type = some "access"
    · rw [if_pos h3, h]
      cases token.claims.user_id <;> rfl
    · rw [if_neg h3]

/-- Witness for C6: a refresh token (wrong kind), otherwise valid and
unexpired, is rejected with the 401 `credentials_exception`. -/
theorem resolve_fails_credentials_invalid_witness :
    get_current_user [] 0 (create_refresh_token { sub := some "alice" } 0 none)
      = .error credentials_exception ∧
    credentials_exception.status_code = 401 :=
  resolve_fails_credentials_invalid [] 0
    (create_refresh_token { sub := some "alice" } 0 none)
    (Or.inr (Or.inr (Or.inl (by decide))))

/-- C7: a validly signed, unexpired access token carrying the id of a
principal that no longer exists in the store makes `get_current_user`
fail with the 401 `credentials_exception` rather than return a
principal. -/
theorem resolve_deleted_principal
    (db : List User) (now : Nat) (token : Token) (uid s : String)
    (hsig : token.signedWith = SECRET_KEY) (hexp : ¬ token.claims.exp < now)
    (htt : token.claims.token_type = some "access")
    (huid : token.claims.user_id = some uid)
    (hsub : token.claims.sub = some s)
    (hdb : dbGetUser db uid = none) :
    get_current_user db now token = .error credentials_exception := by
  unfold get_current_user jwtDecode
  simp [hsig, hexp, htt, huid, hsub, hdb]

/-- Witness for C7: user `alice` was deleted (empty store); her
still-unexpired access token is rejected with 401. -/
theorem resolve_deleted_principal_witness :
    get_current_user [] 0
      (create_access_token
        { sub := some "alice", user_id := some "12345678-90ab-cdef-1234-567890abcdef",
          email := some "a@x.mw", phone := some "099" } 0 none)
      = .error credentials_exception :=
  resolve_deleted_principal [] 0
    (create_access_token
      { sub := some "alice", user_id := some "12345678-90ab-cdef-1234-567890abcdef",
        email := some "a@x.mw", phone := some "099" } 0 none)
    "12345678-90ab-cdef-1234-567890abcdef" "alice"
    rfl (by decide) rfl rfl rfl rfl

/-- C8: `authenticate_user` returns the same `none` signal for a missing
username and for a wrong password, and whenever authentication fails the
`login` responses are identical — both are the one fixed 401
`login_failure` — so response content reveals nothing distinguishing
bad-username from bad-password. -/
theorem login_failure_indistinguishable
    (verify₁ verify₂ : String → String → Bool)
    (db₁ db₂ : List User) (now₁ now₂ : Nat) (u₁ p₁ u₂ p₂ : String)
    (hfail₁ : authenticate_user verify₁ db₁ u₁ p₁ = none)
    (hfail₂ : authenticate_user verify₂ db₂ u₂ p₂ = none) :
    login verify₁ db₁ now₁ u₁ p₁ = login verify₂ db₂ now₂ u₂ p₂ ∧
    login verify₁ db₁ now₁ u₁ p₁ = .error login_failure ∧
    (∀ db u p, get_user_by_username db u = none →
      authenticate_user verify₁ db u p = none) ∧
    (∀ db u p usr, get_user_by_username db u = some usr →
      verify₁ p usr.hashed_password = false →
      authenticate_user verify₁ db u p = none) := by
  refine ⟨?_, ?_, ?_, ?_⟩
  · unfold login
    rw [hfail₁, hfail₂]
  · unfold login
    rw [hfail₁]
  · intro db u p hnone
    unfold authenticate_user
    rw [hnone]
  · intro db u p usr hsome hverify
    unfold authenticate_user
    rw [hsome]
    simp [hverify]

/-- Witness for C8: run 1 has no user `alice` at all; run 2 has `bob` but
the password hash check fails; both logins return the identical 401. -/
theorem login_failure_indistinguishable_witness :
    login (fun p h => p = h) [] 3 "alice" "pw"
      = login (fun p h => p = h)
          [⟨"11111111-2222-3333-4444-555555555555", "bob", "b@x.mw", "088",
            "storedhash", false, false, none⟩] 7 "bob" "wrongpw" ∧
    login (fun p h => p = h) [] 3 "alice" "pw" = .error login_failure :=
  ⟨(login_failure_indistinguishable (fun p h => p = h) (fun p h => p = h) []
      [⟨"11111111-2222-3333-4444-555555555555", "bob", "b@x.mw", "088",
        "storedhash", false, false, none⟩] 3 7 "alice" "pw" "bob" "wrongpw"
      (by decide) (by decide)).1,
   (login_failure_indistinguishable (fun p h => p = h) (fun p h => p = h) []
      [⟨"11111111-2222-3333-4444-555555555555", "bob", "b@x.mw", "088",
        "storedhash", false, false, none⟩] 3 7 "alice" "pw" "bob" "wrongpw"
      (by decide) (by decide)).2.1⟩

/-- The refresh token minted for `alice` at time 0, as in C4. -/
def aliceRefreshToken : Token :=
  create_refresh_token { sub := some "alice" } 0 none

/-- The access token the refresh endpoint mints from `aliceRefreshToken`
at time 10: its data dict is only `sub`, so `user_id` is absent. -/
def aliceRefreshedAccessToken : Token :=
  create_access_token { sub := some "alice" } 10 (some ACCESS_TOKEN_EXPIRE_MINUTES)

/-- The principal `alice`, present in the store, as in C4. -/
def aliceUser : User :=
  ⟨"12345678-90ab-cdef-1234-567890abcdef", "alice", "a@x.mw", "099", "h",
   false, false, none⟩

/-- C4 (code bug): the refresh endpoint accepts a valid refresh token for
`alice` and mints a new access token, but that token carries no `user_id`
claim (the handler copies only `sub` into the new data dict), so
`get_current_user` rejects it with 401 even though the principal still
exists and the token is unexpired — the refresh round-trip never
succeeds. -/
theorem refresh_roundtrip_rejected :
    refresh_token 10 aliceRefreshToken = .ok aliceRefreshedAccessToken ∧
    aliceRefreshedAccessToken.claims.user_id = none ∧
    aliceRefreshedAccessToken.claims.exp = 130 ∧
    get_current_user [aliceUser] 10 aliceRefreshedAccessToken
      = .error credentials_exception := by
  refine ⟨rfl, rfl, rfl, rfl⟩

/-- A principal with `is_subscribed = true` and a null expiry, used to
refute C1 as stated. -/
def grandfatheredUser : User :=
  ⟨"22222222-3333-4444-5555-666666666666", "gina", "g@x.mw", "077", "h",
   false, true, none⟩

/-- Counterexample for C1: the claim says every entitlement check in the
cited code returns true for `is_subscribed = true` with a null expiry,
but `User.is_subscription_active` (`models.py` lines 31-35) returns
false there, while the status endpoint computation returns true — the
two cited sources disagree, so the claimed iff fails for
`is_subscription_active`. -/
theorem entitlement_claim_cex :
    grandfatheredUser.is_subscribed = true ∧
    grandfatheredUser.subscription_expiry = none ∧
    User.is_subscription_active grandfatheredUser 0 = false ∧
    status_is_active grandfatheredUser 0 = true := by
  refine ⟨rfl, rfl, rfl, rfl⟩

/-- C1 amended: the status endpoint predicate
(`routers/subscription.py` lines 252-255) satisfies the spec truth table
exactly, null expiry included; `User.is_subscription_active`
(`models.py` lines 31-35) agrees on every row except
`(is_subscribed = true, expiry = null)`, where it returns false instead
of true. -/
theorem entitlement_truth_table (u : User) (now : Nat) :
    (u.is_subscribed = false →
      status_is_active u now = false ∧ u.is_subscription_active now = false) ∧
    (u.is_subscribed = true → u.subscription_expiry = none →
      status_is_active u now = true ∧ u.is_subscription_active now = false) ∧
    (∀ e, u.is_subscribed = true → u.subscription_expiry = some e →
      status_is_active u now = decide (now < e) ∧
      u.is_subscription_active now = decide (now < e)) := by
  refine ⟨?_, ?_, ?_⟩
  · intro h
    unfold status_is_active User.is_subscription_active
    simp [h]
  · intro h he
    unfold status_is_active User.is_subscription_active
    simp [h, he]
  · intro e h he
    unfold status_is_active User.is_subscription_active
    simp [h, he]

/-- Witness for C1 amended, at a lapsed subscriber: both predicates
return false once the expiry has passed. -/
theorem entitlement_truth_table_witness :
    status_is_active
        ⟨"9", "lena", "l@x.mw", "066", "h", false, true, some 5⟩ 9 = false ∧
    User.is_subscription_active
        ⟨"9", "lena", "l@x.mw", "066", "h", false, true, some 5⟩ 9 = false := by
  have h := (entitlement_truth_table
    ⟨"9", "lena", "l@x.mw", "066", "h", false, true, some 5⟩ 9).2.2 5 rfl rfl
  exact ⟨by rw [h.1]; decide, by rw [h.2]; decide⟩

/-- C5: on a subscription-only endpoint, a request whose access token
resolves to a principal that is not entitled fails with the 403
`subscription_required`, a different error kind from the 401
`credentials_exception`; an entitled principal passes through to the
handler. -/
theorem subscription_guard_distinguishes
    (db : List User) (now : Nat) (token : Token) (u : User)
    (hres : get_current_user db now token = .ok u) :
    (status_is_active u now = false →
      get_current_subscribed_user db now token = .error subscription_required ∧
      subscription_required.status_code = 403 ∧
      subscription_required ≠ credentials_exception) ∧
    (status_is_active u now = true →
      get_current_subscribed_user db now token = .ok u) := by
  unfold get_current_subscribed_user
  rw [hres]
  unfold status_is_active
  constructor
  · intro hact
    exact ⟨by simp [hact], rfl, by decide⟩
  · intro hact
    simp [hact]

/-- Witness for C5: a valid access token for a non-entitled principal is
rejected 403 by the guard. -/
theorem subscription_guard_distinguishes_witness :
    get_current_subscribed_user [aliceUser] 0
        (create_access_token
          { sub := some "alice", user_id := some aliceUser.id,
            email := some "a@x.mw", phone := some "099" } 0 none)
      = .error subscription_required :=
  ((subscription_guard_distinguishes [aliceUser] 0
      (create_access_token
        { sub := some "alice", user_id := some aliceUser.id,
          email := some "a@x.mw", phone := some "099" } 0 none)
      aliceUser rfl).1 rfl).1

/-- A subscriber whose current subscription is still active (expiry at
minute 14400 = day 10), used against C2 as stated. -/
def renewUser : User :=
  ⟨"00000000-0000-0000-0000-000000000001", "al", "a@x.mw", "055", "h",
   false, true, some 14400⟩

/-- A 30-day plan, used by the payment counterexamples. -/
def renewPlan : SubscriptionPlan :=
  ⟨"00000000-0000-0000-0000-000000000002", "Monthly", 10, "MWK", 30, true⟩

/-- A transaction reference that the dash-split parsing does recover ids
from (undashed 32-hex ids), reaching the state-update code. -/
def renewRef : String :=
  "sub-00000000000000000000000000000001-00000000000000000000000000000002"

/-- Counterexample for C2: at `now` = minute 1440 a still-active
subscriber (expiry minute 14400) verifies a successful payment for a
30-day plan; the code sets the new expiry to `now + duration` = 44640,
not to `max(now, current_expiry) + duration` = 57600 as claimed — the
remaining paid-for time is forfeited. -/
theorem verify_payment_resets_expiry_cex :
    (verify_payment [renewPlan] ⟨"successful", 10, "MWK"⟩ 1440 renewUser
        renewRef).toOption.map (fun r => r.1.subscription_expiry)
      = some (some 44640) ∧
    Nat.max 1440 14400 + 30 * minutesPerDay = 57600 ∧
    (44640 : Nat) ≠ 57600 := by
  refine ⟨rfl, rfl, by decide⟩

/-- C2 amended: a verified successful payment whose reference parses and
whose plan exists sets `is_subscribed := true` and
`subscription_expiry := now + plan.duration_days` unconditionally —
resetting from `now` regardless of any remaining time, rather than
extending from `max(now, current_expiry)`. -/
theorem verify_payment_sets_now_plus_duration
    (plans : List SubscriptionPlan) (verification : Verification) (now : Nat)
    (u : User) (ref : String) (pid : String) (plan : SubscriptionPlan)
    (hs : verification.status = "successful")
    (hlen : ¬ (splitOnDash ref.data).length < 3)
    (hparse : uuidParse ((splitOnDash ref.data).getD 2 []) = some pid)
    (hplan : plans.find? (fun p => p.id = pid) = some plan) :
    verify_payment plans verification now u ref
      = .ok ({ u with
               is_subscribed := true,
               subscription_expiry := some (now + plan.duration_days * minutesPerDay) },
             { status := "success", amount := verification.amount,
               currency := verification.currency,
               transaction_reference := ref, payment_date := now,
               plan_id := plan.id,
               expiry_date := now + plan.duration_days * minutesPerDay }) := by
  unfold verify_payment
  rw [hs, if_pos rfl]
  simp only [hlen, if_false, ite_false, hparse, hplan]

/-- Witness for C2 amended: the renewal above, evaluated concretely. -/
theorem verify_payment_sets_now_plus_duration_witness :
    verify_payment [renewPlan] ⟨"successful", 10, "MWK"⟩ 1440 renewUser renewRef
      = .ok ({ renewUser with
               is_subscribed := true, subscription_expiry := some 44640 },
             { status := "success", amount := 10, currency := "MWK",
               transaction_reference := renewRef, payment_date := 1440,
               plan_id := renewPlan.id, expiry_date := 44640 }) := by
  have h := verify_payment_sets_now_plus_duration [renewPlan]
    ⟨"successful", 10, "MWK"⟩ 1440 renewUser renewRef
    "00000000-0000-0000-0000-000000000002" renewPlan rfl
    (by decide) (by decide) (by decide)
  exact h

theorem dbGetUser_map (users : List User) (uid : String) (g : User → User)
    (hg : ∀ v, (g v).id = v.id) :
    dbGetUser (users.map g) uid = (dbGetUser users uid).map g := by
  unfold dbGetUser
  induction users with
  | nil => rfl
  | cons v vs ih =>
    rw [List.map_cons]
    by_cases h : v.id = uid
    · rw [List.find?_cons_of_pos _ (by simp [hg v, h]),
          List.find?_cons_of_pos _ (by simp [h])]
      rfl
    · rw [List.find?_cons_of_neg _ (by simp [hg v, h]),
          List.find?_cons_of_neg _ (by simp [h])]
      exact ih

/-- The not-yet-subscribed principal of the C3 replay scenario. -/
def replayUser : User :=
  ⟨"00000000-0000-0000-0000-000000000001", "al", "a@x.mw", "055", "h",
   false, false, none⟩

/-- The single-user store before any webhook processing, for C3. -/
def replayUsers0 : List User := [replayUser]

/-- The store after the first webhook processing at minute 0: subscribed,
expiry minute 43200 (day 30). -/
def replayUsers1 : List User :=
  [⟨"00000000-0000-0000-0000-000000000001", "al", "a@x.mw", "055", "h",
    false, true, some 43200⟩]

/-- The store after replaying the same reference at minute 1440: the
expiry moved to 44640, so the replay changed the state. -/
def replayUsers2 : List User :=
  [⟨"00000000-0000-0000-0000-000000000001", "al", "a@x.mw", "055", "h",
    false, true, some 44640⟩]

/-- The webhook payload replayed in C3: same verified transaction
reference both times. -/
def replayPayload : WebhookPayload :=
  { tx_ref := some renewRef, status := some "successful" }

/-- Counterexample for C3: processing the same successfully-verified
reference twice — at minute 0 and again at minute 1440 — re-applies the
update both times; the second processing moves `subscription_expiry`
from 43200 to 44640, so it does not leave the principal's subscription
state unchanged. -/
theorem webhook_replay_not_idempotent_cex :
    paychangu_webhook replayUsers0 [renewPlan] 0 replayPayload
      = .ok ("success", replayUsers1) ∧
    paychangu_webhook replayUsers1 [renewPlan] 1440 replayPayload
      = .ok ("success", replayUsers2) ∧
    replayUsers2 ≠ replayUsers1 := by
  refine ⟨rfl, rfl, by decide⟩

/-- C3 amended: the webhook keeps no record of applied references, so a
replay re-runs the full update: after the first processing at `now₁` the
principal's expiry is `now₁ + duration`, and replaying the same
reference at `now₂` sets it to `now₂ + duration` — the expiry is never
double-extended additively, but the second processing rewrites the state
(it leaves the state unchanged only when `now₂ = now₁`). -/
theorem webhook_replay_reapplies
    (users : List User) (plans : List SubscriptionPlan) (now₁ now₂ : Nat)
    (ref uid pid : String) (u : User) (plan : SubscriptionPlan)
    (hlen : ¬ (splitOnDash ref.data).length < 3)
    (h1 : uuidParse ((splitOnDash ref.data).getD 1 []) = some uid)
    (h2 : uuidParse ((splitOnDash ref.data).getD 2 []) = some pid)
    (hu : dbGetUser users uid = some u)
    (hp : plans.find? (fun p => p.id = pid) = some plan) :
    ∃ users₁ users₂,
      paychangu_webhook users plans now₁
          { tx_ref := some ref, status := some "successful" }
        = .ok ("success", users₁) ∧
      paychangu_webhook users₁ plans now₂
          { tx_ref := some ref, status := some "successful" }
        = .ok ("success", users₂) ∧
      dbGetUser users₁ uid
        = some { u with
                 is_subscribed := true,
                 subscription_expiry := some (now₁ + plan.duration_days * minutesPerDay) } ∧
      dbGetUser users₂ uid
        = some { u with
                 is_subscribed := true,
                 subscription_expiry := some (now₂ + plan.duration_days * minutesPerDay) } := by
  have hgid : ∀ (w : User) (e : Nat) (v : User),
      ((fun v : User => if v.id = w.id then
          { v with is_subscribed := true, subscription_expiry := some e }
        else v) v).id = v.id := by
    intro w e v
    by_cases h : v.id = w.id <;> simp [h]
  have step : ∀ (us : List User) (n : Nat) (w : User),
      dbGetUser us uid = some w →
      paychangu_webhook us plans n { tx_ref := some ref, status := some "successful" }
        = .ok ("success", us.map (fun v => if v.id = w.id then
            { v with
              is_subscribed := true,
              subscription_expiry := some (n + plan.duration_days * minutesPerDay) }
          else v)) := by
    intro us n w hw
    unfold paychangu_webhook
    rw [if_pos rfl]
    simp only [hlen, if_false, ite_false, h1, h2, hw, hp]
  have hfound : ∀ (us : List User) (n : Nat) (w : User),
      dbGetUser us uid = some w →
      dbGetUser (us.map (fun v => if v.id = w.id then
          { v with
            is_subscribed := true,
            subscription_expiry := some (n + plan.duration_days * minutesPerDay) }
        else v)) uid
        = some { w with
                 is_subscribed := true,
                 subscription_expiry := some (n + plan.duration_days * minutesPerDay) } := by
    intro us n w hw
    rw [dbGetUser_map us uid _ (hgid w (n + plan.duration_days * minutesPerDay)), hw]
    simp
  refine ⟨_, _, step users now₁ u hu, step _ now₂ _ (hfound users now₁ u hu), hfound users now₁ u hu, ?_⟩
  rw [hfound _ now₂ _ (hfound users now₁ u hu)]

/-- Witness for C3 amended: the concrete replay of C3's counterexample,
obtained by applying the general theorem. -/
theorem webhook_replay_reapplies_witness :
    ∃ users₁ users₂,
      paychangu_webhook replayUsers0 [renewPlan] 0
          { tx_ref := some renewRef, status := some "successful" }
        = .ok ("success", users₁) ∧
      paychangu_webhook users₁ [renewPlan] 1440
          { tx_ref := some renewRef, status := some "successful" }
        = .ok ("success", users₂) ∧
      dbGetUser users₁ "00000000-0000-0000-0000-000000000001"
        = some { replayUser with
                 is_subscribed := true,
                 subscription_expiry := some (0 + renewPlan.duration_days * minutesPerDay) } ∧
      dbGetUser users₂ "00000000-0000-0000-0000-000000000001"
        = some { replayUser with
                 is_subscribed := true,
                 subscription_expiry := some (1440 + renewPlan.duration_days * minutesPerDay) } :=
  webhook_replay_reapplies replayUsers0 [renewPlan] 0 1440 renewRef
    "00000000-0000-0000-0000-000000000001"
    "00000000-0000-0000-0000-000000000002"
    replayUser renewPlan
    (by decide) (by decide) (by decide) (by decide) (by decide)

/-- Counterexample for C9: a payload the webhook processed — provider
status `"successful"` with a malformed reference — is answered with the
framework's generic HTTP 500 error response (the `except` clause itself
crashes on the shadowed `status`), not a success acknowledgment. -/
theorem webhook_error_response_cex :
    paychangu_webhook [] [] 0 { tx_ref := some "bad", status := some "successful" }
      = .error internal_server_error ∧
    internal_server_error.status_code = 500 ∧
    internal_server_error.detail = "Internal Server Error" := by
  refine ⟨rfl, rfl, rfl⟩

/-- C9 amended: the webhook acknowledges success for every payload whose
status is not `"successful"` (unchanged store), and for every
successful-status payload whose reference splits into at least three
parts and parses — previously applied references replayed included,
whether or not the user and plan rows are found; but a payload whose
handling raises (e.g. a malformed reference) is answered with the
generic unhandled-exception HTTP 500 — the written `HTTPException(400)`
is never sent because the `except` clause crashes on the shadowed
`status` — instead of a success acknowledgment. -/
theorem webhook_ack_cases
    (users : List User) (plans : List SubscriptionPlan) (now : Nat)
    (payload : WebhookPayload) :
    (payload.status ≠ some "successful" →
      paychangu_webhook users plans now payload = .ok ("success", users)) ∧
    (∀ ref uid pid, payload.status = some "successful" →
      payload.tx_ref = some ref →
      ¬ (splitOnDash ref.data).length < 3 →
      uuidParse ((splitOnDash ref.data).getD 1 []) = some uid →
      uuidParse ((splitOnDash ref.data).getD 2 []) = some pid →
      ∃ users', paychangu_webhook users plans now payload
        = .ok ("success", users')) ∧
    (∀ ref, payload.status = some "successful" →
      payload.tx_ref = some ref →
      (splitOnDash ref.data).length < 3 →
      paychangu_webhook users plans now payload
        = .error internal_server_error) := by
  refine ⟨?_, ?_, ?_⟩
  · intro h
    unfold paychangu_webhook
    rw [if_neg h]
  · intro ref uid pid hs href hlen h1 h2
    unfold paychangu_webhook
    rw [hs, if_pos rfl, href]
    simp only [hlen, if_false, ite_false, h1, h2]
    split
    · exact ⟨_, rfl⟩
    · exact ⟨users, rfl⟩
  · intro ref hs href hlen
    unfold paychangu_webhook
    rw [hs, if_pos rfl, href]
    simp only [hlen, if_true, ite_true]

/-- Witness for C9 amended: a failed-status payload is acknowledged with
success and leaves the store unchanged. -/
theorem webhook_ack_cases_witness :
    paychangu_webhook replayUsers0 [renewPlan] 0
        { tx_ref := some renewRef, status := some "failed" }
      = .ok ("success", replayUsers0) :=
  (webhook_ack_cases replayUsers0 [renewPlan] 0
    { tx_ref := some renewRef, status := some "failed" }).1 (by decide)

end MCLTV
